import Mathlib

/-
Verification development for the SysMon snapshot capture and alerting
pipeline (src/core.py and src/src/sysmon/models.py).

Modelling conventions:
- Python floats are modelled as rationals; Python ints as naturals.
- A Python method that may raise is modelled as a function into
  Except String A; a try block with an except handler is an explicit
  match on the Except value.
- The host metrics provider (psutil) is modelled as a record of
  Except-valued fields, one per provider query, so a theorem can
  quantify over every provider behaviour including raising.
- Python dicts are association lists with unique keys; attribute
  access on provider-supplied per-interface objects may raise, so the
  corresponding fields are Except-valued.
- datetime.now is modelled by an explicit time parameter: every place
  the code reads the clock receives the current time as an argument.
-/

namespace SysMon

/-! ## Data model (models.py) -/

structure CPUInfo where
  percent : ℚ
  count : ℕ
  frequency : Option ℚ
  per_cpu : Option (List ℚ)
deriving DecidableEq

structure MemoryInfo where
  total_gb : ℚ
  used_gb : ℚ
  available_gb : ℚ
  percent : ℚ
deriving DecidableEq

structure DiskInfo where
  total_gb : ℚ
  used_gb : ℚ
  free_gb : ℚ
  percent : ℚ
  mount_point : String
deriving DecidableEq

structure DiskIOInfo where
  read_bytes_mb : ℚ
  write_bytes_mb : ℚ
  read_count : ℕ
  write_count : ℕ
  read_time_ms : ℚ
  write_time_ms : ℚ
deriving DecidableEq

structure NetworkInfo where
  bytes_sent : ℚ
  bytes_recv : ℚ
  packets_sent : ℕ
  packets_recv : ℕ
deriving DecidableEq

structure NetworkInterfaceInfo where
  name : String
  bytes_sent : ℚ
  bytes_recv : ℚ
  packets_sent : ℕ
  packets_recv : ℕ
  is_up : Bool
  ip_addr : Option String
deriving DecidableEq

structure ProcessInfo where
  pid : ℕ
  name : String
  cpu_percent : ℚ
  memory_percent : ℚ
  status : String
deriving DecidableEq

structure SystemInfo where
  os : String
  os_version : String
  hostname : String
  architecture : String
  boot_time : ℚ
  uptime_seconds : ℚ
deriving DecidableEq

structure AlertConfig where
  cpu_threshold : ℚ := 80
  memory_threshold : ℚ := 85
  disk_threshold : ℚ := 90
  enabled : Bool := true
deriving DecidableEq

structure Alert where
  timestamp : ℚ
  alert_type : String
  severity : String
  message : String
  current_value : ℚ
  threshold : ℚ
deriving DecidableEq

structure SystemSnapshot where
  timestamp : ℚ
  system : SystemInfo
  cpu : CPUInfo
  memory : MemoryInfo
  disk : DiskInfo
  disk_io : Option DiskIOInfo := none
  network : NetworkInfo
  network_interfaces : Option (List NetworkInterfaceInfo) := none
  top_processes : List ProcessInfo := []
  alerts : List Alert := []
deriving DecidableEq

/-! ## Provider model (the psutil surface used by core.py) -/

/-- Raw platform identity, one field per platform.* call used by
get_system_info. -/
structure RawPlatform where
  system : String
  version : String
  node : String
  machine : String

/-- Raw virtual_memory counters in bytes (plus percent). -/
structure RawVMem where
  total : ℚ
  used : ℚ
  available : ℚ
  percent : ℚ

/-- Raw disk_usage counters in bytes (plus percent). -/
structure RawDiskUsage where
  total : ℚ
  used : ℚ
  free : ℚ
  percent : ℚ

/-- Raw disk_io_counters fields. -/
structure RawDiskCounters where
  read_bytes : ℚ
  write_bytes : ℚ
  read_count : ℕ
  write_count : ℕ
  read_time : ℚ
  write_time : ℚ

/-- Raw net_io_counters fields (aggregate or per interface). -/
structure RawNetCounters where
  bytes_sent : ℚ
  bytes_recv : ℚ
  packets_sent : ℕ
  packets_recv : ℕ

/-- One address record from net_if_addrs. Reading the family attribute
of a provider-supplied object may itself raise, so it is Except-valued. -/
structure RawAddr where
  family : Except String String
  address : String

/-- One record from net_if_stats; reading isup may raise. -/
structure RawIfStat where
  isup : Except String Bool

/-- One entry yielded by process_iter, as the dict proc.info.
cpu_percent and memory_percent may be None (modelled as Option). -/
structure RawProcEntry where
  pid : ℕ
  name : String
  cpu_percent : Option ℚ
  memory_percent : Option ℚ
  status : String

/-- The host metrics provider: one Except-valued field per psutil query
used by core.py. An .error value models the call raising. An entry of
none in process_iter models a process whose info access raised
NoSuchProcess or AccessDenied. -/
structure Provider where
  platform_info : Except String RawPlatform
  cpu_percent_blocking : Except String ℚ
  cpu_percent_percpu : Except String (List ℚ)
  cpu_freq : Except String (Option ℚ)
  cpu_count : Except String ℕ
  virtual_memory : Except String RawVMem
  disk_usage : String → Except String RawDiskUsage
  disk_io_counters : Except String (Option RawDiskCounters)
  net_io_counters : Except String RawNetCounters
  net_if_addrs : Except String (List (String × List RawAddr))
  net_if_stats : Except String (List (String × RawIfStat))
  net_io_counters_pernic : Except String (List (String × RawNetCounters))
  process_iter : Except String (List (Option RawProcEntry))

/-! ## Unit conversion helpers -/

/-- Modelled from the spec: utils.py is not in the sources; the spec
describes bytes_to_gb as a pure function converting raw byte counts to
GB. -/
def bytes_to_gb (b : ℚ) : ℚ := b / (1024 * 1024 * 1024)

/-- Modelled from the spec: utils.py is not in the sources; the spec
describes bytes_to_mb as a pure function converting raw byte counts to
MB. -/
def bytes_to_mb (b : ℚ) : ℚ := b / (1024 * 1024)

/-- Abstraction of the Python percent formatting with one decimal digit
used in alert messages. The exact decimal rounding of the format
specifier is not claim-relevant; this renders the value rounded to one
decimal place. -/
def fmtPct1 (q : ℚ) : String :=
  let n : ℤ := round (q * 10)
  toString (n / 10) ++ "." ++ toString ((n % 10).natAbs)

/-! ## SystemMonitor state -/

/-- Monitor state: boot_time cached at construction and the alert
configuration, both fixed for the monitor lifetime. The unused
_previous_disk_io field of the source is always None and is omitted. -/
structure SystemMonitor where
  boot_time : ℚ
  alert_config : AlertConfig

/-! ## SystemMonitor operations (core.py) -/

/-- get_system_info: builds SystemInfo from platform identity and the
cached boot time; uptime is now minus boot_time. The except handler
logs and re-raises, so provider errors propagate unchanged. -/
def get_system_info (m : SystemMonitor) (p : Provider) (now : ℚ) :
    Except String SystemInfo :=
  match p.platform_info with
  | .error e => .error e
  | .ok plat =>
      .ok { os := plat.system
            os_version := plat.version
            hostname := plat.node
            architecture := plat.machine
            boot_time := m.boot_time
            uptime_seconds := now - m.boot_time }

/-- get_cpu_info: blocking aggregate sample, optional per-core sample,
best-effort frequency (the provider returns none when the host exposes
no frequency object), then core count. The except handler logs and
re-raises, so provider errors propagate. -/
def get_cpu_info (p : Provider) (per_cpu : Bool) : Except String CPUInfo :=
  match p.cpu_percent_blocking with
  | .error e => .error e
  | .ok cpu_percent =>
      match (if per_cpu then Except.map some p.cpu_percent_percpu
             else .ok none) with
      | .error e => .error e
      | .ok per_cpu_percent =>
          match p.cpu_freq with
          | .error e => .error e
          | .ok freq =>
              match p.cpu_count with
              | .error e => .error e
              | .ok count =>
                  .ok { percent := cpu_percent
                        count := count
                        frequency := freq
                        per_cpu := per_cpu_percent }

/-- get_memory_info: converts virtual_memory counters; provider errors
propagate (the except handler logs and re-raises). -/
def get_memory_info (p : Provider) : Except String MemoryInfo :=
  match p.virtual_memory with
  | .error e => .error e
  | .ok mem =>
      .ok { total_gb := bytes_to_gb mem.total
            used_gb := bytes_to_gb mem.used
            available_gb := bytes_to_gb mem.available
            percent := mem.percent }

/-- get_disk_info: converts disk_usage counters for the given mount
point; provider errors propagate. -/
def get_disk_info (p : Provider) (mount_point : String) :
    Except String DiskInfo :=
  match p.disk_usage mount_point with
  | .error e => .error e
  | .ok disk =>
      .ok { total_gb := bytes_to_gb disk.total
            used_gb := bytes_to_gb disk.used
            free_gb := bytes_to_gb disk.free
            percent := disk.percent
            mount_point := mount_point }

/-- get_disk_io_info: returns none when the platform exposes no disk
I/O counters, and the except handler downgrades any provider error to
none (logged at warning severity, never re-raised). -/
def get_disk_io_info (p : Provider) : Except String (Option DiskIOInfo) :=
  match p.disk_io_counters with
  | .error _ => .ok none
  | .ok none => .ok none
  | .ok (some c) =>
      .ok (some { read_bytes_mb := bytes_to_mb c.read_bytes
                  write_bytes_mb := bytes_to_mb c.write_bytes
                  read_count := c.read_count
                  write_count := c.write_count
                  read_time_ms := c.read_time
                  write_time_ms := c.write_time })

/-- get_network_info: converts aggregate net_io_counters; provider
errors propagate. -/
def get_network_info (p : Provider) : Except String NetworkInfo :=
  match p.net_io_counters with
  | .error e => .error e
  | .ok net =>
      .ok { bytes_sent := bytes_to_mb net.bytes_sent
            bytes_recv := bytes_to_mb net.bytes_recv
            packets_sent := net.packets_sent
            packets_recv := net.packets_recv }

/-- The loop over addrs in get_network_interfaces: first address whose
family is AF_INET; reading a family attribute may raise. -/
def findIPv4 : List RawAddr → Except String (Option String)
  | [] => .ok none
  | a :: rest =>
      match a.family with
      | .error e => .error e
      | .ok fam =>
          if fam = "AF_INET" then .ok (some a.address) else findIPv4 rest

/-- The body of the inner try block of get_network_interfaces for one
interface: resolve the optional IPv4 address from net_if_addrs, then
the link state from net_if_stats (defaulting to up when the interface
has no stats entry), and assemble the record. -/
def processInterface (stats : List (String × RawIfStat))
    (addrs : List (String × List RawAddr))
    (name : String) (if_io : RawNetCounters) :
    Except String NetworkInterfaceInfo :=
  let if_stat := stats.lookup name
  match (match addrs.lookup name with
         | some l => findIPv4 l
         | none => .ok none) with
  | .error e => .error e
  | .ok ip_addr =>
      match (match if_stat with
             | some st => st.isup
             | none => .ok true) with
      | .error e => .error e
      | .ok is_up =>
          .ok { name := name
                bytes_sent := bytes_to_mb if_io.bytes_sent
                bytes_recv := bytes_to_mb if_io.bytes_recv
                packets_sent := if_io.packets_sent
                packets_recv := if_io.packets_recv
                is_up := is_up
                ip_addr := ip_addr }

/-- The for loop of get_network_interfaces: the inner except handler
logs at debug severity and continues, so an interface whose detail
resolution fails is skipped. -/
def collectInterfaces (stats : List (String × RawIfStat))
    (addrs : List (String × List RawAddr)) :
    List (String × RawNetCounters) → List NetworkInterfaceInfo
  | [] => []
  | (name, if_io) :: rest =>
      match processInterface stats addrs name if_io with
      | .ok info => info :: collectInterfaces stats addrs rest
      | .error _ => collectInterfaces stats addrs rest

/-- get_network_interfaces: fetches the three per-interface tables,
iterates the I/O counter table with per-interface isolation, returns
none instead of the empty list, and the outer except handler downgrades
any failure to none (logged at warning severity, never re-raised). -/
def get_network_interfaces (p : Provider) :
    Except String (Option (List NetworkInterfaceInfo)) :=
  match (match p.net_if_addrs with
         | .error e => .error e
         | .ok addrs =>
             match p.net_if_stats with
             | .error e => .error e
             | .ok stats =>
                 match p.net_io_counters_pernic with
                 | .error e => .error e
                 | .ok ios =>
                     let interfaces := collectInterfaces stats addrs ios
                     .ok (if interfaces.isEmpty then none
                          else some interfaces) : Except String _) with
  | .ok v => .ok v
  | .error _ => .ok none

/-- The filtering loop of get_top_processes: skip entries whose info
access raised, skip pid 0, treat a missing cpu_percent as 0.0 and skip
zero-CPU entries, and default a missing memory_percent to 0.0. -/
def collectProcesses : List (Option RawProcEntry) → List ProcessInfo
  | [] => []
  | none :: rest => collectProcesses rest
  | some e :: rest =>
      if e.pid = 0 then collectProcesses rest
      else
        let cpu_pct := e.cpu_percent.getD 0
        if cpu_pct = 0 then collectProcesses rest
        else
          { pid := e.pid
            name := e.name
            cpu_percent := cpu_pct
            memory_percent := e.memory_percent.getD 0
            status := e.status } :: collectProcesses rest

/-- The comparator of the Python stable sort with key cpu_percent and
reverse set: descending by cpu_percent, ties considered equal so the
stable sort keeps their encounter order. -/
def procDescLE (a b : ProcessInfo) : Bool :=
  decide (b.cpu_percent ≤ a.cpu_percent)

/-- get_top_processes: enumerate, filter, stable-sort descending by
cpu_percent, truncate to count. The except handler around the whole
body returns the empty list on a total enumeration failure. -/
def get_top_processes (p : Provider) (count : ℕ) : List ProcessInfo :=
  match p.process_iter with
  | .error _ => []
  | .ok entries =>
      (((collectProcesses entries).mergeSort procDescLE).take count)

/-- The cpu alert record built by check_alerts when the cpu threshold
is reached: severity escalates to critical at the fixed bound 95, and
the timestamp takes the evaluation time (the datetime.now default of
the Alert model). -/
def cpuAlert (cfg : AlertConfig) (now : ℚ) (s : SystemSnapshot) : Alert :=
  { timestamp := now
    alert_type := "cpu"
    severity := if (95 : ℚ) ≤ s.cpu.percent then "critical" else "warning"
    message := "CPU usage is " ++ fmtPct1 s.cpu.percent ++ "%"
    current_value := s.cpu.percent
    threshold := cfg.cpu_threshold }

/-- The memory alert record built by check_alerts when the memory
threshold is reached. -/
def memoryAlert (cfg : AlertConfig) (now : ℚ) (s : SystemSnapshot) : Alert :=
  { timestamp := now
    alert_type := "memory"
    severity := if (95 : ℚ) ≤ s.memory.percent then "critical" else "warning"
    message := "Memory usage is " ++ fmtPct1 s.memory.percent ++ "%"
    current_value := s.memory.percent
    threshold := cfg.memory_threshold }

/-- The disk alert record built by check_alerts when the disk threshold
is reached. -/
def diskAlert (cfg : AlertConfig) (now : ℚ) (s : SystemSnapshot) : Alert :=
  { timestamp := now
    alert_type := "disk"
    severity := if (95 : ℚ) ≤ s.disk.percent then "critical" else "warning"
    message := "Disk usage is " ++ fmtPct1 s.disk.percent ++ "%"
    current_value := s.disk.percent
    threshold := cfg.disk_threshold }

/-- check_alerts: empty when disabled; one alert per category whose
percent reaches its threshold, appended in the order cpu, memory,
disk. The now argument models the datetime.now default of the Alert
timestamp field. -/
def check_alerts (cfg : AlertConfig) (now : ℚ) (s : SystemSnapshot) :
    List Alert :=
  if !cfg.enabled then []
  else
    (if cfg.cpu_threshold ≤ s.cpu.percent then [cpuAlert cfg now s] else [])
    ++
    (if cfg.memory_threshold ≤ s.memory.percent then [memoryAlert cfg now s]
     else [])
    ++
    (if cfg.disk_threshold ≤ s.disk.percent then [diskAlert cfg now s]
     else [])

/-- Capture options with the documented defaults. -/
structure CaptureOptions where
  per_cpu : Bool := false
  include_processes : Bool := true
  process_count : ℕ := 5
  include_disk_io : Bool := true
  include_network_interfaces : Bool := false
  check_alerts : Bool := true

/-- capture_snapshot: the five required sub-calls in source order, then
the conditional optional fields assigned onto the snapshot. A raise in
any assignment expression would reach the outer handler, which logs and
re-raises, so it is modelled with Except.map on the optional calls. -/
def capture_snapshot (m : SystemMonitor) (p : Provider) (now : ℚ)
    (opts : CaptureOptions) : Except String SystemSnapshot :=
  match get_system_info m p now with
  | .error e => .error e
  | .ok system =>
  match get_cpu_info p opts.per_cpu with
  | .error e => .error e
  | .ok cpu =>
  match get_memory_info p with
  | .error e => .error e
  | .ok memory =>
  match get_disk_info p "/" with
  | .error e => .error e
  | .ok disk =>
  match get_network_info p with
  | .error e => .error e
  | .ok network =>
  let snapshot0 : SystemSnapshot :=
    { timestamp := now, system := system, cpu := cpu, memory := memory
      disk := disk, network := network, top_processes := [] }
  match (if opts.include_disk_io then
           Except.map (fun d => { snapshot0 with disk_io := d })
             (get_disk_io_info p)
         else .ok snapshot0) with
  | .error e => .error e
  | .ok snapshot1 =>
  match (if opts.include_network_interfaces then
           Except.map (fun v => { snapshot1 with network_interfaces := v })
             (get_network_interfaces p)
         else .ok snapshot1) with
  | .error e => .error e
  | .ok snapshot2 =>
  let snapshot3 := if opts.include_processes then
      { snapshot2 with top_processes := get_top_processes p opts.process_count }
    else snapshot2
  let snapshot4 := if opts.check_alerts then
      { snapshot3 with alerts := check_alerts m.alert_config now snapshot3 }
    else snapshot3
  .ok snapshot4

/-! ## Concrete fixtures used by witness and counterexample theorems -/

def sampleSystem : SystemInfo :=
  { os := "Linux", os_version := "6.1", hostname := "host"
    architecture := "x86_64", boot_time := 0, uptime_seconds := 100 }

def sampleCPU (pct : ℚ) : CPUInfo :=
  { percent := pct, count := 4, frequency := some 2400, per_cpu := none }

def sampleMemory (pct : ℚ) : MemoryInfo :=
  { total_gb := 16, used_gb := 8, available_gb := 8, percent := pct }

def sampleDisk (pct : ℚ) : DiskInfo :=
  { total_gb := 100, used_gb := 50, free_gb := 50, percent := pct
    mount_point := "/" }

def sampleNetwork : NetworkInfo :=
  { bytes_sent := 1, bytes_recv := 2, packets_sent := 3, packets_recv := 4 }

/-- A snapshot with the given cpu, memory and disk percents and neutral
values elsewhere. -/
def sampleSnapshot (cpu mem disk : ℚ) : SystemSnapshot :=
  { timestamp := 0, system := sampleSystem, cpu := sampleCPU cpu
    memory := sampleMemory mem, disk := sampleDisk disk
    network := sampleNetwork }

/-- The default alert configuration: 80/85/90, enabled. -/
def cfgDefault : AlertConfig := {}

/-- A configuration with alerts disabled. -/
def cfgOff : AlertConfig := { enabled := false }

/-- The fields of an alert other than its timestamp. -/
def alertCore (a : Alert) : String × String × String × ℚ × ℚ :=
  (a.alert_type, a.severity, a.message, a.current_value, a.threshold)

/-- The list of per-interface records that survive per-interface
isolation: entries whose detail resolution fails are dropped, the rest
keep their enumeration order. -/
def ifaceSuccesses (stats : List (String × RawIfStat))
    (addrs : List (String × List RawAddr))
    (ios : List (String × RawNetCounters)) : List NetworkInterfaceInfo :=
  ios.filterMap (fun e => (processInterface stats addrs e.1 e.2).toOption)

/-! ## Provider fixtures used by witness theorems -/

def okPlatform : RawPlatform :=
  { system := "Linux", version := "6.1", node := "host", machine := "x86_64" }

def okVMem : RawVMem :=
  { total := 1024, used := 512, available := 512, percent := 50 }

def okDiskUsage : RawDiskUsage :=
  { total := 2048, used := 1024, free := 1024, percent := 50 }

def okNet : RawNetCounters :=
  { bytes_sent := 0, bytes_recv := 0, packets_sent := 1, packets_recv := 1 }

/-- An interface whose link state read raises. -/
def badStat : RawIfStat := { isup := .error "stat boom" }

/-- An interface whose link state reads fine. -/
def goodStat : RawIfStat := { isup := .ok true }

def sampleStats : List (String × RawIfStat) :=
  [("bad", badStat), ("good", goodStat)]

def sampleAddrs : List (String × List RawAddr) := []

def sampleIOs : List (String × RawNetCounters) :=
  [("bad", okNet), ("good", okNet)]

/-- A process enumeration containing a vanished process, pid 0, a
zero-CPU process and three qualifying processes with one cpu tie. -/
def sampleProcs : List (Option RawProcEntry) :=
  [ some { pid := 1, name := "a", cpu_percent := some 10
           memory_percent := some 1, status := "running" }
  , none
  , some { pid := 0, name := "kernel", cpu_percent := some 50
           memory_percent := none, status := "running" }
  , some { pid := 2, name := "b", cpu_percent := some 30
           memory_percent := none, status := "running" }
  , some { pid := 3, name := "c", cpu_percent := none
           memory_percent := some 2, status := "idle" }
  , some { pid := 4, name := "d", cpu_percent := some 30
           memory_percent := some 3, status := "running" } ]

/-- A fully healthy provider, except that the host exposes no frequency
reading and no disk I/O counters. -/
def baseProvider : Provider :=
  { platform_info := .ok okPlatform
    cpu_percent_blocking := .ok 96
    cpu_percent_percpu := .ok [96, 96]
    cpu_freq := .ok none
    cpu_count := .ok 4
    virtual_memory := .ok okVMem
    disk_usage := fun _ => .ok okDiskUsage
    disk_io_counters := .ok none
    net_io_counters := .ok okNet
    net_if_addrs := .ok sampleAddrs
    net_if_stats := .ok sampleStats
    net_io_counters_pernic := .ok sampleIOs
    process_iter := .ok sampleProcs }

/-- The base provider with the virtual memory query raising. -/
def memFailProvider : Provider :=
  { baseProvider with virtual_memory := .error "mem boom" }

/-- The base provider with both optional queries raising: the disk I/O
counters and the per-interface address table. -/
def optFailProvider : Provider :=
  { baseProvider with
      disk_io_counters := .error "io boom"
      net_if_addrs := .error "addr boom" }

def sampleMonitor : SystemMonitor := { boot_time := 0, alert_config := {} }

/-! ## Helper lemmas -/

theorem check_alerts_enabled_eq (cfg : AlertConfig) (now : ℚ)
    (s : SystemSnapshot) (he : cfg.enabled = true) :
    check_alerts cfg now s =
      (if cfg.cpu_threshold ≤ s.cpu.percent then [cpuAlert cfg now s] else [])
      ++
      (if cfg.memory_threshold ≤ s.memory.percent then [memoryAlert cfg now s]
       else [])
      ++
      (if cfg.disk_threshold ≤ s.disk.percent then [diskAlert cfg now s]
       else []) := by
  unfold check_alerts
  rw [he]
  rfl

theorem mem_check_alerts_of_mem (cfg : AlertConfig) (now : ℚ)
    (s : SystemSnapshot) (a : Alert) (ha : a ∈ check_alerts cfg now s) :
    cfg.enabled = true ∧
      ((cfg.cpu_threshold ≤ s.cpu.percent ∧ a = cpuAlert cfg now s) ∨
       (cfg.memory_threshold ≤ s.memory.percent ∧ a = memoryAlert cfg now s) ∨
       (cfg.disk_threshold ≤ s.disk.percent ∧ a = diskAlert cfg now s)) := by
  unfold check_alerts at ha
  cases h : cfg.enabled <;> rw [h] at ha <;> simp at ha
  exact ⟨rfl, ha⟩

theorem cpuAlert_mem_check_alerts (cfg : AlertConfig) (now : ℚ)
    (s : SystemSnapshot) (he : cfg.enabled = true)
    (hle : cfg.cpu_threshold ≤ s.cpu.percent) :
    cpuAlert cfg now s ∈ check_alerts cfg now s := by
  rw [check_alerts_enabled_eq cfg now s he]
  exact List.mem_append_left _ (by simp [hle])

theorem memoryAlert_mem_check_alerts (cfg : AlertConfig) (now : ℚ)
    (s : SystemSnapshot) (he : cfg.enabled = true)
    (hle : cfg.memory_threshold ≤ s.memory.percent) :
    memoryAlert cfg now s ∈ check_alerts cfg now s := by
  rw [check_alerts_enabled_eq cfg now s he]
  exact List.mem_append_left _ (List.mem_append_right _ (by simp [hle]))

theorem diskAlert_mem_check_alerts (cfg : AlertConfig) (now : ℚ)
    (s : SystemSnapshot) (he : cfg.enabled = true)
    (hle : cfg.disk_threshold ≤ s.disk.percent) :
    diskAlert cfg now s ∈ check_alerts cfg now s := by
  rw [check_alerts_enabled_eq cfg now s he]
  exact List.mem_append_right _ (by simp [hle])

/-! ## Theorems -/

/-- C1: for every snapshot and configuration, check_alerts returns at
most one alert per category, hence at most three alerts total, and
returns the empty list whenever the enabled flag is false, regardless
of the snapshot metric values. -/
theorem check_alerts_category_bound (cfg : AlertConfig) (now : ℚ)
    (s : SystemSnapshot) :
    (cfg.enabled = false → check_alerts cfg now s = []) ∧
    (check_alerts cfg now s).countP (fun a => a.alert_type == "cpu") ≤ 1 ∧
    (check_alerts cfg now s).countP (fun a => a.alert_type == "memory") ≤ 1 ∧
    (check_alerts cfg now s).countP (fun a => a.alert_type == "disk") ≤ 1 ∧
    (check_alerts cfg now s).length ≤ 3 := by
  unfold check_alerts
  cases h : cfg.enabled <;> simp
  refine ⟨?_, ?_, ?_, ?_⟩ <;> (repeat' split) <;>
    simp [List.countP_append, List.countP_cons, cpuAlert, memoryAlert,
      diskAlert]

/-- Witness for C1 at a disabled configuration and saturated metrics. -/
theorem check_alerts_category_bound_witness :
    cfgOff.enabled = false ∧ check_alerts cfgOff 0 (sampleSnapshot 99 99 99) = [] :=
  ⟨rfl, (check_alerts_category_bound cfgOff 0 (sampleSnapshot 99 99 99)).1 rfl⟩

/-- C2: every alert emitted by check_alerts has severity critical
exactly when the percent of its category is at least 95, and warning
otherwise, for every configured threshold. -/
theorem check_alerts_severity_escalation (cfg : AlertConfig) (now : ℚ)
    (s : SystemSnapshot) (a : Alert)
    (ha : a ∈ check_alerts cfg now s) :
    (a.alert_type = "cpu" →
      a.severity = if (95 : ℚ) ≤ s.cpu.percent then "critical" else "warning") ∧
    (a.alert_type = "memory" →
      a.severity = if (95 : ℚ) ≤ s.memory.percent then "critical" else "warning") ∧
    (a.alert_type = "disk" →
      a.severity = if (95 : ℚ) ≤ s.disk.percent then "critical" else "warning") := by
  obtain ⟨-, hc⟩ := mem_check_alerts_of_mem cfg now s a ha
  rcases hc with ⟨-, rfl⟩ | ⟨-, rfl⟩ | ⟨-, rfl⟩ <;>
    simp [cpuAlert, memoryAlert, diskAlert]

/-- Witness for C2: with default thresholds, cpu percent exactly 95
fires a critical alert and cpu percent 94 fires a warning alert. -/
theorem check_alerts_severity_escalation_witness :
    (∃ a ∈ check_alerts cfgDefault 0 (sampleSnapshot 95 50 50),
       a.severity = "critical") ∧
    (∃ a ∈ check_alerts cfgDefault 0 (sampleSnapshot 94 50 50),
       a.severity = "warning") := by
  constructor
  · have hm : cpuAlert cfgDefault 0 (sampleSnapshot 95 50 50) ∈
        check_alerts cfgDefault 0 (sampleSnapshot 95 50 50) :=
      cpuAlert_mem_check_alerts _ _ _ rfl
        (by norm_num [cfgDefault, sampleSnapshot, sampleCPU])
    have h := (check_alerts_severity_escalation cfgDefault 0
      (sampleSnapshot 95 50 50) _ hm).1 rfl
    refine ⟨_, hm, ?_⟩
    rw [h]
    norm_num [sampleSnapshot, sampleCPU]
  · have hm : cpuAlert cfgDefault 0 (sampleSnapshot 94 50 50) ∈
        check_alerts cfgDefault 0 (sampleSnapshot 94 50 50) :=
      cpuAlert_mem_check_alerts _ _ _ rfl
        (by norm_num [cfgDefault, sampleSnapshot, sampleCPU])
    have h := (check_alerts_severity_escalation cfgDefault 0
      (sampleSnapshot 94 50 50) _ hm).1 rfl
    refine ⟨_, hm, ?_⟩
    rw [h]
    norm_num [sampleSnapshot, sampleCPU]

/-- C3: with alerts enabled, a category fires an alert exactly when its
percent is at least its configured threshold: equality triggers, a
strictly smaller percent does not. -/
theorem check_alerts_threshold_boundary (cfg : AlertConfig) (now : ℚ)
    (s : SystemSnapshot) (he : cfg.enabled = true) :
    ((∃ a ∈ check_alerts cfg now s, a.alert_type = "cpu") ↔
       cfg.cpu_threshold ≤ s.cpu.percent) ∧
    ((∃ a ∈ check_alerts cfg now s, a.alert_type = "memory") ↔
       cfg.memory_threshold ≤ s.memory.percent) ∧
    ((∃ a ∈ check_alerts cfg now s, a.alert_type = "disk") ↔
       cfg.disk_threshold ≤ s.disk.percent) := by
  refine ⟨⟨?_, ?_⟩, ⟨?_, ?_⟩, ⟨?_, ?_⟩⟩
  · rintro ⟨a, ha, hty⟩
    obtain ⟨-, hc⟩ := mem_check_alerts_of_mem cfg now s a ha
    rcases hc with ⟨h1, rfl⟩ | ⟨h1, rfl⟩ | ⟨h1, rfl⟩ <;>
      simp [cpuAlert, memoryAlert, diskAlert] at hty ⊢ <;> exact h1
  · intro hle
    exact ⟨cpuAlert cfg now s, cpuAlert_mem_check_alerts cfg now s he hle, rfl⟩
  · rintro ⟨a, ha, hty⟩
    obtain ⟨-, hc⟩ := mem_check_alerts_of_mem cfg now s a ha
    rcases hc with ⟨h1, rfl⟩ | ⟨h1, rfl⟩ | ⟨h1, rfl⟩ <;>
      simp [cpuAlert, memoryAlert, diskAlert] at hty ⊢ <;> exact h1
  · intro hle
    exact ⟨memoryAlert cfg now s,
      memoryAlert_mem_check_alerts cfg now s he hle, rfl⟩
  · rintro ⟨a, ha, hty⟩
    obtain ⟨-, hc⟩ := mem_check_alerts_of_mem cfg now s a ha
    rcases hc with ⟨h1, rfl⟩ | ⟨h1, rfl⟩ | ⟨h1, rfl⟩ <;>
      simp [cpuAlert, memoryAlert, diskAlert] at hty ⊢ <;> exact h1
  · intro hle
    exact ⟨diskAlert cfg now s, diskAlert_mem_check_alerts cfg now s he hle,
      rfl⟩

/-- Witness for C3 at the boundary: cpu percent equal to its threshold
fires, memory percent just below its threshold does not. -/
theorem check_alerts_threshold_boundary_witness :
    (∃ a ∈ check_alerts cfgDefault 0 (sampleSnapshot 80 (84999/1000) 50),
       a.alert_type = "cpu") ∧
    ¬ (∃ a ∈ check_alerts cfgDefault 0 (sampleSnapshot 80 (84999/1000) 50),
       a.alert_type = "memory") := by
  have h := check_alerts_threshold_boundary cfgDefault 0
    (sampleSnapshot 80 (84999/1000) 50) rfl
  refine ⟨h.1.mpr (by norm_num [cfgDefault, sampleSnapshot, sampleCPU]), ?_⟩
  intro hmem
  have := h.2.1.mp hmem
  norm_num [cfgDefault, sampleSnapshot, sampleMemory] at this

/-- C8 counterexample: check_alerts reads the clock for the alert
timestamps, so two calls with the same snapshot and configuration at
different times produce different alert lists. -/
theorem check_alerts_time_dependent :
    ¬ (check_alerts cfgDefault 0 (sampleSnapshot 96 50 50) =
       check_alerts cfgDefault 1 (sampleSnapshot 96 50 50)) := by
  intro h
  have h0 : cpuAlert cfgDefault 0 (sampleSnapshot 96 50 50) ∈
      check_alerts cfgDefault 1 (sampleSnapshot 96 50 50) := by
    rw [← h]
    exact cpuAlert_mem_check_alerts _ _ _ rfl
      (by norm_num [cfgDefault, sampleSnapshot, sampleCPU])
  obtain ⟨-, hc⟩ := mem_check_alerts_of_mem _ _ _ _ h0
  rcases hc with ⟨-, he⟩ | ⟨-, he⟩ | ⟨-, he⟩ <;>
    · have := congrArg Alert.timestamp he
      simp [cpuAlert, memoryAlert, diskAlert] at this

/-- C8 amended: check_alerts is a deterministic total function of the
snapshot, the configuration and the evaluation time; two calls with the
same snapshot and configuration produce alert lists identical in every
field except the timestamp, which records the evaluation time. -/
theorem check_alerts_deterministic_mod_timestamp (cfg : AlertConfig)
    (t1 t2 : ℚ) (s : SystemSnapshot) :
    (check_alerts cfg t1 s).map alertCore =
      (check_alerts cfg t2 s).map alertCore ∧
    ∀ a ∈ check_alerts cfg t1 s, a.timestamp = t1 := by
  constructor
  · unfold check_alerts
    cases h : cfg.enabled <;> simp
    repeat' split
    all_goals simp [alertCore, cpuAlert, memoryAlert, diskAlert]
  · intro a ha
    obtain ⟨-, hc⟩ := mem_check_alerts_of_mem cfg t1 s a ha
    rcases hc with ⟨-, rfl⟩ | ⟨-, rfl⟩ | ⟨-, rfl⟩ <;> rfl

/-- Witness for C8 amended at a concrete firing snapshot and two
distinct times. -/
theorem check_alerts_deterministic_mod_timestamp_witness :
    (check_alerts cfgDefault 0 (sampleSnapshot 96 50 50)).map alertCore =
      (check_alerts cfgDefault 5 (sampleSnapshot 96 50 50)).map alertCore := by
  exact (check_alerts_deterministic_mod_timestamp cfgDefault 0 5
    (sampleSnapshot 96 50 50)).1

/-! ## Helper lemmas for the provider-facing operations -/

open List

theorem get_disk_io_info_isOk (p : Provider) :
    ∃ v, get_disk_io_info p = Except.ok v := by
  unfold get_disk_io_info
  rcases p.disk_io_counters with e | (_ | c)
  · exact ⟨none, rfl⟩
  · exact ⟨none, rfl⟩
  · exact ⟨_, rfl⟩

theorem get_network_interfaces_isOk (p : Provider) :
    ∃ w, get_network_interfaces p = Except.ok w := by
  unfold get_network_interfaces
  rcases p.net_if_addrs with e | addrs
  · exact ⟨none, rfl⟩
  rcases p.net_if_stats with e | stats
  · exact ⟨none, rfl⟩
  rcases p.net_io_counters_pernic with e | ios
  · exact ⟨none, rfl⟩
  exact ⟨_, rfl⟩

theorem collectProcesses_mem (l : List (Option RawProcEntry)) :
    ∀ x ∈ collectProcesses l, x.pid ≠ 0 ∧ x.cpu_percent ≠ 0 := by
  induction l with
  | nil => intro x hx; simp [collectProcesses] at hx
  | cons hd tl ih =>
      intro x hx
      match hd with
      | none =>
          exact ih x (by simpa [collectProcesses] using hx)
      | some e =>
          simp only [collectProcesses] at hx
          by_cases h0 : e.pid = 0
          · rw [if_pos h0] at hx; exact ih x hx
          · rw [if_neg h0] at hx
            by_cases hz : e.cpu_percent.getD 0 = 0
            · rw [if_pos hz] at hx; exact ih x hx
            · rw [if_neg hz] at hx
              rcases List.mem_cons.mp hx with rfl | hx2
              · exact ⟨h0, hz⟩
              · exact ih x hx2

theorem procDescLE_trans (a b c : ProcessInfo) (hab : procDescLE a b)
    (hbc : procDescLE b c) : procDescLE a c := by
  simp only [procDescLE, decide_eq_true_eq] at hab hbc ⊢
  exact hbc.trans hab

theorem procDescLE_total (a b : ProcessInfo) :
    procDescLE a b || procDescLE b a := by
  simp only [procDescLE, Bool.or_eq_true, decide_eq_true_eq]
  exact le_total b.cpu_percent a.cpu_percent

theorem filter_mergeSort_cpu_eq (l : List ProcessInfo) (q : ℚ) :
    (l.mergeSort procDescLE).filter (fun x => x.cpu_percent == q) =
      l.filter (fun x => x.cpu_percent == q) := by
  have hmemq : ∀ x ∈ l.filter (fun x => x.cpu_percent == q),
      x.cpu_percent = q := by
    intro x hx
    simpa using (List.mem_filter.mp hx).2
  have hpw : (l.filter (fun x => x.cpu_percent == q)).Pairwise
      (fun a b => procDescLE a b) := by
    refine List.pairwise_of_forall_mem_list ?_
    intro a ha b hb
    simp only [procDescLE, decide_eq_true_eq]
    rw [hmemq a ha, hmemq b hb]
  have hsub : l.filter (fun x => x.cpu_percent == q) <+
      l.mergeSort procDescLE :=
    List.sublist_mergeSort procDescLE_trans procDescLE_total hpw
      (List.filter_sublist l)
  have hsub2 : l.filter (fun x => x.cpu_percent == q) <+
      (l.mergeSort procDescLE).filter (fun x => x.cpu_percent == q) := by
    have h2 := hsub.filter (fun x => x.cpu_percent == q)
    rwa [List.filter_eq_self.mpr
      (fun a ha => (List.mem_filter.mp ha).2)] at h2
  have hperm : (l.mergeSort procDescLE).filter (fun x => x.cpu_percent == q) ~
      l.filter (fun x => x.cpu_percent == q) :=
    (List.mergeSort_perm l procDescLE).filter (fun x => x.cpu_percent == q)
  exact (hsub2.eq_of_length hperm.length_eq.symm).symm

theorem collectInterfaces_eq_filterMap (stats : List (String × RawIfStat))
    (addrs : List (String × List RawAddr))
    (l : List (String × RawNetCounters)) :
    collectInterfaces stats addrs l = ifaceSuccesses stats addrs l := by
  induction l with
  | nil => rfl
  | cons hd tl ih =>
      obtain ⟨name, if_io⟩ := hd
      simp only [collectInterfaces, ifaceSuccesses, List.filterMap_cons]
      cases h : processInterface stats addrs name if_io <;>
        simp [h, Except.toOption, ih, ifaceSuccesses]

/-! ## Theorems for the provider-facing claims -/

/-- C4: get_top_processes returns at most count entries, sorted by
cpu_percent descending, ties keeping their encounter order (the entries
with any fixed cpu_percent form a sublist of the filtered enumeration
in its original order), and no returned entry has pid 0 or zero
cpu_percent. -/
theorem get_top_processes_spec (p : Provider) (count : ℕ)
    (entries : List (Option RawProcEntry))
    (hp : p.process_iter = Except.ok entries) :
    (get_top_processes p count).length ≤ count ∧
    (get_top_processes p count).Pairwise
      (fun a b => b.cpu_percent ≤ a.cpu_percent) ∧
    (∀ x ∈ get_top_processes p count, x.pid ≠ 0 ∧ x.cpu_percent ≠ 0) ∧
    (∀ q : ℚ,
      (get_top_processes p count).filter (fun x => x.cpu_percent == q) <+
        (collectProcesses entries).filter (fun x => x.cpu_percent == q)) := by
  have hdef : get_top_processes p count =
      ((collectProcesses entries).mergeSort procDescLE).take count := by
    simp [get_top_processes, hp]
  refine ⟨?_, ?_, ?_, ?_⟩
  · rw [hdef]; exact List.length_take_le _ _
  · rw [hdef]
    have hs := List.sorted_mergeSort procDescLE_trans procDescLE_total
      (collectProcesses entries)
    have hs2 := hs.sublist (List.take_sublist count
      ((collectProcesses entries).mergeSort procDescLE))
    exact hs2.imp (fun h => by simpa [procDescLE] using h)
  · rw [hdef]
    intro x hx
    exact collectProcesses_mem entries x
      (List.mem_mergeSort.mp (List.take_subset _ _ hx))
  · intro q
    rw [hdef]
    have h := (List.take_sublist count
      ((collectProcesses entries).mergeSort procDescLE)).filter
      (fun x => x.cpu_percent == q)
    rwa [filter_mergeSort_cpu_eq] at h

/-- Witness for C4 on a concrete enumeration with a vanished process,
a pid 0 entry, a zero-CPU entry and a cpu tie. -/
theorem get_top_processes_spec_witness :
    (get_top_processes baseProvider 2).length ≤ 2 ∧
    (get_top_processes baseProvider 2).filter
        (fun x => x.cpu_percent == 30) <+
      (collectProcesses sampleProcs).filter (fun x => x.cpu_percent == 30) := by
  have h := get_top_processes_spec baseProvider 2 sampleProcs rfl
  exact ⟨h.1, h.2.2.2 30⟩

/-- C5: get_disk_io_info and get_network_interfaces never propagate a
failure: for every provider behaviour they return an ok value, and a
provider error at any of their failure points manifests as the absent
result none rather than an exception. -/
theorem optional_calls_never_fail (p : Provider) :
    (∃ v, get_disk_io_info p = Except.ok v) ∧
    (∃ w, get_network_interfaces p = Except.ok w) ∧
    (∀ e, p.disk_io_counters = Except.error e →
      get_disk_io_info p = Except.ok none) ∧
    (∀ e, p.net_if_addrs = Except.error e →
      get_network_interfaces p = Except.ok none) ∧
    (∀ e, p.net_if_stats = Except.error e →
      get_network_interfaces p = Except.ok none) ∧
    (∀ e, p.net_io_counters_pernic = Except.error e →
      get_network_interfaces p = Except.ok none) := by
  refine ⟨get_disk_io_info_isOk p, get_network_interfaces_isOk p,
    ?_, ?_, ?_, ?_⟩
  · intro e he
    simp [get_disk_io_info, he]
  · intro e he
    simp [get_network_interfaces, he]
  · intro e he
    cases h1 : p.net_if_addrs <;>
      simp [get_network_interfaces, h1, he]
  · intro e he
    cases h1 : p.net_if_addrs <;>
      cases h2 : p.net_if_stats <;>
        simp [get_network_interfaces, h1, h2, he]

/-- Witness for C5: on a concrete provider whose disk I/O counters and
interface address table both raise, both optional calls return the
absent result. -/
theorem optional_calls_never_fail_witness :
    get_disk_io_info optFailProvider = Except.ok none ∧
    get_network_interfaces optFailProvider = Except.ok none := by
  have h := optional_calls_never_fail optFailProvider
  exact ⟨h.2.2.1 "io boom" rfl, h.2.2.2.1 "addr boom" rfl⟩

/-- C6: with the three per-interface tables available, a failure
resolving one interface is skipped without aborting the others (the
result is exactly the successful entries, and removing a failing entry
does not change it), and zero usable interfaces yields an absent
result, not an empty list and not an error. -/
theorem get_network_interfaces_isolation (p : Provider)
    (addrs : List (String × List RawAddr))
    (stats : List (String × RawIfStat))
    (ios : List (String × RawNetCounters))
    (h1 : p.net_if_addrs = Except.ok addrs)
    (h2 : p.net_if_stats = Except.ok stats)
    (h3 : p.net_io_counters_pernic = Except.ok ios) :
    (get_network_interfaces p = Except.ok
      (if (ifaceSuccesses stats addrs ios).isEmpty then none
       else some (ifaceSuccesses stats addrs ios))) ∧
    (ifaceSuccesses stats addrs ios = [] →
      get_network_interfaces p = Except.ok none) ∧
    (∀ pre post name if_io e, ios = pre ++ (name, if_io) :: post →
      processInterface stats addrs name if_io = Except.error e →
      ifaceSuccesses stats addrs ios = ifaceSuccesses stats addrs (pre ++ post)) := by
  have hmain : get_network_interfaces p = Except.ok
      (if (ifaceSuccesses stats addrs ios).isEmpty then none
       else some (ifaceSuccesses stats addrs ios)) := by
    simp [get_network_interfaces, h1, h2, h3, collectInterfaces_eq_filterMap]
  refine ⟨hmain, fun hz => ?_, ?_⟩
  · rw [hmain, hz]; rfl
  · intro pre post name if_io e hios herr
    subst hios
    simp [ifaceSuccesses, List.filterMap_append, List.filterMap_cons, herr,
      Except.toOption]

/-- Witness for C6: an interface whose link state read raises is
dropped while the other interface survives, on a concrete provider. -/
theorem get_network_interfaces_isolation_witness :
    (get_network_interfaces baseProvider = Except.ok
      (if (ifaceSuccesses sampleStats sampleAddrs sampleIOs).isEmpty then none
       else some (ifaceSuccesses sampleStats sampleAddrs sampleIOs))) ∧
    ifaceSuccesses sampleStats sampleAddrs sampleIOs =
      ifaceSuccesses sampleStats sampleAddrs [("good", okNet)] := by
  have h := get_network_interfaces_isolation baseProvider sampleAddrs
    sampleStats sampleIOs rfl rfl rfl
  refine ⟨h.1, ?_⟩
  exact h.2.2 [] [("good", okNet)] "bad" okNet "stat boom" rfl rfl

/-- C7: capture_snapshot succeeds exactly when all five required
sub-calls succeed, for every option configuration, and any error it
returns is the error of a required sub-call; optional sub-call
behaviour never makes it fail. -/
theorem capture_required_all_or_nothing (m : SystemMonitor) (p : Provider)
    (now : ℚ) (opts : CaptureOptions) :
    ((∃ s, capture_snapshot m p now opts = Except.ok s) ↔
      ((∃ v, get_system_info m p now = Except.ok v) ∧
       (∃ v, get_cpu_info p opts.per_cpu = Except.ok v) ∧
       (∃ v, get_memory_info p = Except.ok v) ∧
       (∃ v, get_disk_info p "/" = Except.ok v) ∧
       (∃ v, get_network_info p = Except.ok v))) ∧
    (∀ e, capture_snapshot m p now opts = Except.error e →
      get_system_info m p now = Except.error e ∨
      get_cpu_info p opts.per_cpu = Except.error e ∨
      get_memory_info p = Except.error e ∨
      get_disk_info p "/" = Except.error e ∨
      get_network_info p = Except.error e) := by
  obtain ⟨optA, optB, optC, optD, optE, optF⟩ := opts
  obtain ⟨dio, hdio⟩ := get_disk_io_info_isOk p
  obtain ⟨ni, hni⟩ := get_network_interfaces_isOk p
  cases h1 : get_system_info m p now <;>
    cases h2 : get_cpu_info p optA <;>
      cases h3 : get_memory_info p <;>
        cases h4 : get_disk_info p "/" <;>
          cases h5 : get_network_info p <;>
            cases optD <;> cases optE <;>
              simp [capture_snapshot, h1, h2, h3, h4, h5, hdio, hni,
                Except.map]

/-- Witness for C7: with the virtual memory query raising, the capture
error is the error of a required sub-call. -/
theorem capture_required_all_or_nothing_witness :
    get_system_info sampleMonitor memFailProvider 0 = Except.error "mem boom" ∨
    get_cpu_info memFailProvider false = Except.error "mem boom" ∨
    get_memory_info memFailProvider = Except.error "mem boom" ∨
    get_disk_info memFailProvider "/" = Except.error "mem boom" ∨
    get_network_info memFailProvider = Except.error "mem boom" := by
  have h := (capture_required_all_or_nothing sampleMonitor memFailProvider 0
    {}).2 "mem boom" rfl
  exact h

/-- C9: when the host exposes no frequency reading and the other cpu
queries succeed, get_cpu_info succeeds with an absent frequency
field. -/
theorem get_cpu_info_freq_best_effort (p : Provider) (b : Bool) (c : ℚ)
    (l : List ℚ) (n : ℕ)
    (hfreq : p.cpu_freq = Except.ok none)
    (hc : p.cpu_percent_blocking = Except.ok c)
    (hl : b = true → p.cpu_percent_percpu = Except.ok l)
    (hn : p.cpu_count = Except.ok n) :
    get_cpu_info p b = Except.ok
      { percent := c, count := n, frequency := none
        per_cpu := if b then some l else none } := by
  cases b
  · simp [get_cpu_info, hfreq, hc, hn]
  · simp [get_cpu_info, hfreq, hc, hn, hl rfl, Except.map]

/-- Witness for C9 on the concrete base provider, which exposes no
frequency reading. -/
theorem get_cpu_info_freq_best_effort_witness :
    get_cpu_info baseProvider false = Except.ok
      { percent := 96, count := 4, frequency := none, per_cpu := none } := by
  have h := get_cpu_info_freq_best_effort baseProvider false 96 [] 4 rfl rfl
    (fun hfalse => nomatch hfalse) rfl
  simpa using h

end SysMon
